import Mathlib

/-!
Verification of the gmailapi query-expression builder, pagination, bulk-action
context and label-hierarchy reconciler, as a shallow embedding of the Python
source under `src/gmailapi/`.  Python objects become Lean structures, mutation
becomes explicit state passing, object identity is modelled by allocation
tokens, and fallible operations return `Except`.
-/

/-! ## Attribute algebra (src/gmailapi/attribute.py) -/

/-- Operator enum (attribute.py line 8): EQUAL, NOT_EQUAL, GREATER, LESS, CONTAINS. -/
inductive Operator where
  | EQUAL
  | NOT_EQUAL
  | GREATER
  | LESS
  | CONTAINS
deriving DecidableEq, Repr

/-- ChainOperator enum (attribute.py line 12): AND, OR. -/
inductive ChainOperator where
  | AND
  | OR
deriving DecidableEq, Repr

/-- A Python error raised during evaluation of the embedded code. -/
inductive PyError where
  | valueError
  | typeError
  | attributeError
deriving DecidableEq, Repr

/-- State of a `BaseAttribute` instance (attribute.py lines 83-113).  `__init__` stores
`operator`, `value` and `negated := False` without any validation, so both `operator`
and `value` may be Python `None`; they are therefore `Option`-typed here. -/
structure EquatableAttr where
  name : String
  operator : Option Operator
  value : Option String
  negated : Bool
deriving DecidableEq, Repr

/-- Python `str(value)` for the operand: `str(None) = "None"`, strings unchanged. -/
def pyStr : Option String → String
  | none => "None"
  | some s => s

/-- First whitespace-delimited token of a string, modelling
`Str(self.value).re.split(r"\s")[0]` (attribute.py lines 153, 172). -/
def firstToken (s : String) : String :=
  String.mk (s.data.takeWhile (fun c => ¬ c.isWhitespace))

/-- `BaseAttribute.prefix` (attribute.py lines 102-104): the sign is `-` when
`negated XOR (operator == NOT_EQUAL)` holds. -/
def basePrefixFn (a : EquatableAttr) : String :=
  let negated := if a.operator = some Operator.NOT_EQUAL then ¬ a.negated else a.negated
  if negated then "-" else ""

/-- `EquatableAttribute.right` (attribute.py lines 152-159): truncate the operand at the
first whitespace, quote it for EQUAL/NOT_EQUAL, leave it bare for CONTAINS, and raise
ValueError for any other operator (including a missing one). -/
def equatableRight (a : EquatableAttr) : Except PyError String :=
  let value := firstToken (pyStr a.value)
  match a.operator with
  | some Operator.CONTAINS => Except.ok value
  | some Operator.EQUAL => Except.ok ("\"" ++ value ++ "\"")
  | some Operator.NOT_EQUAL => Except.ok ("\"" ++ value ++ "\"")
  | _ => Except.error PyError.valueError

/-- `BaseAttribute.__str__` (attribute.py line 94) specialised to an equatable
attribute: `prefix() + left() + ":" + right()`, with `left()` returning `name`.
This path is shadowed at runtime by the `EquatableAttribute.__str__` override. -/
def baseAttrStr (a : EquatableAttr) : Except PyError String :=
  (equatableRight a).map (fun r => basePrefixFn a ++ a.name ++ ":" ++ r)

/-- `EquatableAttribute.__str__` (attribute.py lines 149-150), the override that is
actually executed: `f"{'-' if self.negated else ''}{self.name}:{self.value}"`.
It ignores `prefix()` and `right()` entirely (no quoting, no truncation, no
NOT_EQUAL sign). -/
def equatableStr (a : EquatableAttr) : String :=
  (if a.negated then "-" else "") ++ a.name ++ ":" ++ pyStr a.value

/-- `EquatableAttributeMeta.__eq__` (attribute.py lines 64-65): `A == v` instantiates
the class with `Operator.EQUAL` and the value; `__init__` sets `negated := false`. -/
def attrEq (name v : String) : EquatableAttr :=
  { name := name, operator := some Operator.EQUAL, value := some v, negated := false }

/-- `EquatableAttributeMeta.__ne__` (attribute.py lines 67-68): `A != v` instantiates
the class with `Operator.NOT_EQUAL` and the value. -/
def attrNe (name v : String) : EquatableAttr :=
  { name := name, operator := some Operator.NOT_EQUAL, value := some v, negated := false }

/-- `EquatableAttributeMeta.contains` (attribute.py lines 70-72). -/
def attrContains (name v : String) : EquatableAttr :=
  { name := name, operator := some Operator.CONTAINS, value := some v, negated := false }

mutual
/-- One side of an `Expression` (attribute.py line 184): either an instantiated
attribute or another expression. -/
inductive Operand where
  | attr : EquatableAttr → Operand
  | expr : Expression → Operand

/-- `Expression` (attribute.py lines 175-209).  `__init__` stores `left`, `operator`
and `right`; the `negated` attribute is only *annotated* on the class (line 178) and
never assigned, so a freshly constructed expression has no `negated` attribute at
all: this unset state is `none`. -/
inductive Expression where
  | mk : Operand → ChainOperator → Operand → Option Bool → Expression
end

/-- `Expression.parentheses` (attribute.py lines 179-182): AND wraps in
round brackets, OR in curly braces. -/
def parentheses : ChainOperator → String × String
  | ChainOperator.AND => ("(", ")")
  | ChainOperator.OR => ("\x7b", "\x7d")

mutual
/-- `str` of an operand: delegates to the operand's own `__str__`. -/
def operandStr : Operand → String
  | Operand.attr a => equatableStr a
  | Operand.expr e => exprStr e

/-- `Expression.__str__` (attribute.py lines 190-192):
`f"{start}{self.left} {self.right}{stop}"`.  No negation sign is emitted and the
`negated` attribute is never consulted. -/
def exprStr : Expression → String
  | Expression.mk l op r _ =>
      let p := parentheses op
      p.1 ++ operandStr l ++ " " ++ operandStr r ++ p.2
end

/-- `Expression.__init__` (attribute.py lines 184-185): it only assigns the three
fields and performs no validation whatsoever, so construction always succeeds
(the `Except` result is always `ok`) and `negated` is left unset. -/
def expressionInit (l : Operand) (op : ChainOperator) (r : Operand) :
    Except PyError Expression :=
  Except.ok (Expression.mk l op r none)

/-- `Expression._negate` (attribute.py lines 203-206): `self.negated = not self.negated`
first *reads* `self.negated`; on a freshly built expression that attribute is unset,
so the read raises AttributeError.  When set, the flag is flipped. -/
def exprNegate : Expression → Except PyError Expression
  | Expression.mk _ _ _ none => Except.error PyError.attributeError
  | Expression.mk l op r (some b) => Except.ok (Expression.mk l op r (some (!b)))

/-- `BaseAttribute.__and__` (attribute.py lines 96-97): builds
`Expression(left=self, AND, right=other._resolve())`; for instantiated attributes
`_resolve` returns the attribute itself. -/
def attrAnd (a : EquatableAttr) (other : Operand) : Expression :=
  Expression.mk (Operand.attr a) ChainOperator.AND other none

/-- `BaseAttribute.__or__` (attribute.py lines 99-100). -/
def attrOr (a : EquatableAttr) (other : Operand) : Expression :=
  Expression.mk (Operand.attr a) ChainOperator.OR other none

/-! ## Query pagination (src/gmailapi/query.py, `Query._fetch_message_ids`) -/

/-- The external paginated message-listing collaborator, abstracted: it holds
`total` message ids (numbered `0, 1, ...`) and serves at most `pageCap` of them
per list call. -/
structure PageSource where
  total : Nat
  pageCap : Nat
deriving DecidableEq, Repr

/-- One `users().messages().list(...)` call against the collaborator, starting at
`offset` with the requested `maxResults`: it returns at most
`min pageCap maxResults` of the remaining ids, together with a continuation token
(the next offset) exactly when more ids remain afterwards. -/
def listMessages (s : PageSource) (offset maxResults : Nat) : List Nat × Option Nat :=
  let n := min s.pageCap (min maxResults (s.total - offset))
  (List.range' offset n, if offset + n < s.total then some (offset + n) else none)

/-- The `while "nextPageToken" in response` loop of `Query._fetch_message_ids`
(query.py lines 92-100), entered with the token `offset` of the next page.  With a
limit set, the loop breaks when `limit - len(resources)` is zero and otherwise
shrinks `maxResults` to that remainder before following the token; with no limit
`maxResults` stays at its initial value.  The collaborator never returns more than
`maxResults` ids, so `resources` never exceeds the limit and the truncated `Nat`
subtraction agrees with Python's.  `fuel` is a termination measure only; every run
considered below finishes with fuel to spare.  The second component counts list
calls issued so far. -/
def fetchPages (s : PageSource) (limit : Option Nat) :
    Nat → List Nat → Nat → Nat → Nat → List Nat × Nat
  | 0, resources, _, _, calls => (resources, calls)
  | fuel + 1, resources, offset, maxResults, calls =>
    match limit with
    | some l =>
      if l - resources.length = 0 then (resources, calls)
      else
        let mr := l - resources.length
        let page := listMessages s offset mr
        match page.2 with
        | none => (resources ++ page.1, calls + 1)
        | some off => fetchPages s limit fuel (resources ++ page.1) off mr (calls + 1)
    | none =>
      let page := listMessages s offset maxResults
      match page.2 with
      | none => (resources ++ page.1, calls + 1)
      | some off => fetchPages s limit fuel (resources ++ page.1) off maxResults (calls + 1)

/-- `Query._fetch_message_ids` (query.py lines 79-102): the first list call asks for
`maxResults = limit` (or `99999` when the limit is null), then the token loop runs.
Returns the fetched ids and the total number of list calls issued. -/
def fetch_message_ids (s : PageSource) (limit : Option Nat) : List Nat × Nat :=
  let mr0 := match limit with
    | none => 99999
    | some l => l
  let page := listMessages s 0 mr0
  match page.2 with
  | none => (page.1, 1)
  | some off => fetchPages s limit (s.total + 1) page.1 off mr0 1

/-! ## Bulk action context (src/gmailapi/query.py, `BulkActionContext`) -/

/-- `BulkActionContext` state (query.py lines 133-135): `__init__` sets
`_committed := False` and `result_set := None`.  The wrapped action and query are
modelled externally (the captured id set is a parameter of the operations; each
invocation of the action is recorded with its argument). -/
structure BulkCtx where
  committed : Bool
  result_set : Option (List String)
deriving DecidableEq, Repr

/-- `BulkActionContext.__init__` (query.py lines 133-135). -/
def bulkInit : BulkCtx := { committed := false, result_set := none }

/-- `BulkActionContext.__enter__` (query.py lines 143-145): captures the query's
current matching id set into `result_set`. -/
def bulkEnter (fetched : List String) (c : BulkCtx) : BulkCtx :=
  { c with result_set := some fetched }

/-- `BulkActionContext.commit` (query.py lines 151-153). -/
def bulkCommit (c : BulkCtx) : BulkCtx :=
  { c with committed := true }

/-- `BulkActionContext.__exit__` (query.py lines 147-149): invokes the wrapped
action on `result_set` exactly when `_committed` is set.  The returned list records
every action invocation with its argument. -/
def bulkExit (c : BulkCtx) : List (Option (List String)) :=
  if c.committed then [c.result_set] else []

/-- `BulkActionContext.__len__` (query.py lines 137-138): `len(self.result_set)`.
Python `len(None)` raises TypeError, so before the id set is captured the length
is an error rather than `0`. -/
def bulkLen (c : BulkCtx) : Except PyError Nat :=
  match c.result_set with
  | none => Except.error PyError.typeError
  | some l => Except.ok l.length

/-- `BulkActionContext.__bool__` (query.py lines 140-141): `len(self) > 0`, with the
TypeError from `__len__` propagating. -/
def bulkBool (c : BulkCtx) : Except PyError Bool :=
  (bulkLen c).map (fun n => decide (0 < n))

/-- A full `with` block over the context (query.py lines 143-149): enter (capturing
`fetched`), optionally call `commit()`, then exit.  Returns the recorded action
invocations. -/
def scopedRun (fetched : List String) (doCommit : Bool) : List (Option (List String)) :=
  let c := bulkEnter fetched bulkInit
  bulkExit (if doCommit then bulkCommit c else c)

/-- `BulkActionContext.execute` (query.py lines 155-159): captures the id set,
invokes the action synchronously once, and returns `len(self)`.  Result: the final
context, the recorded invocations, and the returned count. -/
def bulkExecute (fetched : List String) :
    BulkCtx × List (Option (List String)) × Except PyError Nat :=
  let c := { bulkInit with result_set := some fetched }
  (c, [some fetched], bulkLen c)

/-! ## Label registry and hierarchy reconciler (src/gmailapi/label/) -/

/-- Python's `"/" in name` substring test for a single character: whether the
character occurs in the string. -/
def pyInStr (c : Char) (s : String) : Bool :=
  s.data.contains c

/-- A remote label as returned by `users().labels().list` (hierarchy.py line 23):
an id and a possibly slash-delimited name. -/
structure RemoteLabel where
  id : String
  name : String
deriving DecidableEq, Repr

/-- The mutable state of a `Node`/`LabelMapper` object (hierarchy.py lines 58-62,
mapper.py lines 14-19).  Object references become allocation tokens (`Nat`), so
`parent` and the `children` dict hold tokens, and the lazily cached `_entity` is
the token of the materialised entity object (or `none`). -/
structure NodeData where
  id : String
  name : String
  parent : Option Nat
  children : List (String × Nat)
  entity : Option Nat
deriving DecidableEq, Repr

/-- Python dict lookup (`d[k]` / `d.get(k)`). -/
def dictGet? {α β : Type} [BEq α] (d : List (α × β)) (k : α) : Option β :=
  (d.find? (fun p => p.1 == k)).map (fun p => p.2)

/-- Python dict assignment `d[k] = v`: overwrite in place if the key exists,
otherwise append (insertion order preserved). -/
def dictSet {α β : Type} [BEq α] (d : List (α × β)) (k : α) (v : β) : List (α × β) :=
  if d.any (fun p => p.1 == k) then d.map (fun p => if p.1 == k then (k, v) else p)
  else d ++ [(k, v)]

/-- `Registry` (registry.py lines 9-42): the paired id→node and name→node mappings,
with nodes represented by their tokens. -/
structure Registry where
  idMap : List (String × Nat)
  nameMap : List (String × Nat)
deriving DecidableEq, Repr

/-- `Registry()` (registry.py lines 10-12). -/
def emptyRegistry : Registry := { idMap := [], nameMap := [] }

/-- `Registry.set` (registry.py lines 20-22): insert the node under both its id
and its name. -/
def regSet (r : Registry) (id name : String) (t : Nat) : Registry :=
  { idMap := dictSet r.idMap id t, nameMap := dictSet r.nameMap name t }

/-- `Registry.get_by_id` as used with `contains_by_id` (registry.py lines 14-15, 34-35). -/
def regGetById (r : Registry) (id : String) : Option Nat :=
  dictGet? r.idMap id

/-- `Registry.contains_by_id` (registry.py lines 34-35). -/
def containsById (r : Registry) (id : String) : Bool :=
  (regGetById r id).isSome

/-- `Registry.contains_by_name` (registry.py lines 37-38). -/
def containsByName (r : Registry) (name : String) : Bool :=
  (dictGet? r.nameMap name).isSome

/-- Helper for `afterFirst`: the remainder of the character list after the first
occurrence of `sep`, or `none` if `sep` does not occur. -/
def afterFirstAux (sep : List Char) : List Char → Option (List Char)
  | [] => if sep.isEmpty then some [] else none
  | c :: rest =>
    if sep.isPrefixOf (c :: rest) then some ((c :: rest).drop sep.length)
    else afterFirstAux sep rest

/-- `Str(name).slice.after_first(sep)` from the external `subtypes` library
(hierarchy.py line 71): the substring after the first occurrence of `sep`.  When
`sep` does not occur the string is modelled as returned unchanged; none of the
runs considered below ever hits that branch, because every label list handed to a
node only contains names extending that node's own slash-qualified name. -/
def afterFirst (s sep : String) : String :=
  match afterFirstAux sep.data s.data with
  | some r => String.mk r
  | none => s

/-- Reconciliation state threaded through a refresh: the object heap, the
allocation counter and the new registry being built. -/
structure St where
  heap : List (Nat × NodeData)
  next : Nat
  reg : Registry
deriving DecidableEq, Repr

/-- Dereference a node token (attribute access on a node object). -/
def heapGet (h : List (Nat × NodeData)) (t : Nat) : NodeData :=
  (dictGet? h t).getD { id := "", name := "", parent := none, children := [], entity := none }

/-- Mutate the node object behind token `t`. -/
def heapUpdate (s : St) (t : Nat) (f : NodeData → NodeData) : St :=
  { s with heap := s.heap.map (fun p => if p.1 == t then (p.1, f p.2) else p) }

/-- Allocate a fresh `Node` (hierarchy.py lines 59-62): a new token bound to a node
with the given id, name and parent, empty children and no cached entity
(mapper.py line 19). -/
def allocNode (s : St) (id name : String) (parent : Option Nat) : Nat × St :=
  (s.next,
   { s with
     heap := s.heap ++ [(s.next, { id := id, name := name, parent := parent,
                                   children := [], entity := none })],
     next := s.next + 1 })

/-- The fixed system label/category ids (accessor.py lines 16-26, 42-48, 60). -/
def systemIds : List String :=
  ["INBOX", "SENT", "UNREAD", "IMPORTANT", "STARRED", "DRAFT", "CHAT", "TRASH", "SPAM",
   "CATEGORY_PERSONAL", "CATEGORY_SOCIAL", "CATEGORY_PROMOTIONS", "CATEGORY_UPDATES",
   "CATEGORY_FORUMS"]

/-- The system mappers created once in `LabelAccessor.__init__` (accessor.py lines
28-56): categories first (tokens 0-4), then system labels (tokens 5-13), each a
mapper with no children and no cached entity. -/
def systemHeap : List (Nat × NodeData) :=
  [(0, { id := "CATEGORY_PERSONAL", name := "Primary", parent := none, children := [], entity := none }),
   (1, { id := "CATEGORY_SOCIAL", name := "Social", parent := none, children := [], entity := none }),
   (2, { id := "CATEGORY_PROMOTIONS", name := "Promotions", parent := none, children := [], entity := none }),
   (3, { id := "CATEGORY_UPDATES", name := "Updates", parent := none, children := [], entity := none }),
   (4, { id := "CATEGORY_FORUMS", name := "Forums", parent := none, children := [], entity := none }),
   (5, { id := "INBOX", name := "Inbox", parent := none, children := [], entity := none }),
   (6, { id := "SENT", name := "Sent", parent := none, children := [], entity := none }),
   (7, { id := "UNREAD", name := "Unread", parent := none, children := [], entity := none }),
   (8, { id := "IMPORTANT", name := "Important", parent := none, children := [], entity := none }),
   (9, { id := "STARRED", name := "Starred", parent := none, children := [], entity := none }),
   (10, { id := "DRAFT", name := "Draft", parent := none, children := [], entity := none }),
   (11, { id := "CHAT", name := "Chat", parent := none, children := [], entity := none }),
   (12, { id := "TRASH", name := "Trash", parent := none, children := [], entity := none }),
   (13, { id := "SPAM", name := "Spam", parent := none, children := [], entity := none })]

/-- `LabelAccessor._prepare_new_registry` (accessor.py lines 79-89): a fresh
registry seeded with the fourteen long-lived system mappers, categories first. -/
def prepareNewRegistry : Registry :=
  systemHeap.foldl (fun r p => regSet r p.2.id p.2.name p.1) emptyRegistry

/-- `Node.register_children_recursively` (hierarchy.py lines 64-83), run as a
depth-first worklist so that the recursion is structural in the fuel: each job is
a node token together with the label list passed to it.  The body mirrors the
source line by line: register the node in the new registry (line 65; the unused
`children` comprehension of line 67 is dead code and omitted), classify each label
by whether its name still contains `/` after stripping this node's `name + "/"`
prefix (line 71), reuse the node from the old registry (re-parenting it) or
allocate a fresh one for each direct child (lines 74-80), and finally recurse into
every entry of this node's `children` dict — including entries that predate this
refresh — with the deeper labels (lines 82-83). -/
def nodeRegisterLoop (old : Registry) : Nat → List (Nat × List RemoteLabel) → St → St
  | 0, _, s => s
  | _ + 1, [], s => s
  | fuel + 1, (t, labels) :: rest, s =>
    let s := { s with reg := regSet s.reg (heapGet s.heap t).id (heapGet s.heap t).name t }
    let selfName := (heapGet s.heap t).name
    let deep := labels.filter (fun l => pyInStr '/' (afterFirst l.name (selfName ++ "/")))
    let direct := labels.filter (fun l => !(pyInStr '/' (afterFirst l.name (selfName ++ "/"))))
    let s := direct.foldl (fun s l =>
      let nm := afterFirst l.name (selfName ++ "/")
      match regGetById old l.id with
      | some tc =>
        let s := heapUpdate s tc (fun d => { d with parent := some t })
        heapUpdate s t (fun d => { d with children := dictSet d.children nm tc })
      | none =>
        let alloc := allocNode s l.id l.name (some t)
        heapUpdate alloc.2 t
          (fun d => { d with children := dictSet d.children nm alloc.1 })) s
    let childJobs := ((heapGet s.heap t).children.map (fun p => p.2)).map (fun tc => (tc, deep))
    nodeRegisterLoop old fuel (childJobs ++ rest) s

/-- The public state of a `LabelAccessor` (accessor.py lines 59-77): the object
heap, allocation counter, the current `_registry`, and the root's children dict
(the `Root` object is rebuilt on every refresh, hierarchy.py lines 16-19; the
`user` namespace regenerated from it by `regenerate_labels` exposes exactly the
`rootChildren` mapping, so path lookups go through it). -/
structure AccessorState where
  heap : List (Nat × NodeData)
  next : Nat
  reg : Registry
  rootChildren : List (String × Nat)
deriving DecidableEq, Repr

/-- `LabelAccessor` just before its first `_refresh` (accessor.py lines 62-71):
only the system mappers exist and `_registry` is `None`, which `_refresh` treats
as an empty old registry (accessor.py line 75). -/
def accessorStart : AccessorState :=
  { heap := systemHeap, next := 14, reg := emptyRegistry, rootChildren := [] }

/-- `LabelAccessor._refresh` plus `Root.refresh`/`Root.register_children_recursively`
(accessor.py lines 73-77, hierarchy.py lines 16-55): build the new registry seeded
with the system mappers, partition the fetched labels at the root (dropping
system-id labels from the direct children, hierarchy.py lines 32-37), reuse or
allocate each direct child of the fresh `Root` (lines 39-46), recurse into every
root child with the deeper labels (lines 48-49), and finally swap `_registry` to
the newly built one (accessor.py line 77). -/
def refresh (st : AccessorState) (labels : List RemoteLabel) : AccessorState :=
  let old := st.reg
  let rootDirect := labels.filter (fun l => !(pyInStr '/' l.name) && !(systemIds.contains l.id))
  let deep := labels.filter (fun l => pyInStr '/' l.name)
  let s0 : St := { heap := st.heap, next := st.next, reg := prepareNewRegistry }
  let built := rootDirect.foldl (fun (acc : List (String × Nat) × St) c =>
    match regGetById old c.id with
    | some t => (dictSet acc.1 c.name t, heapUpdate acc.2 t (fun d => { d with parent := none }))
    | none =>
      let alloc := allocNode acc.2 c.id c.name none
      (dictSet acc.1 c.name alloc.1, alloc.2)) ([], s0)
  let jobs := (built.1.map (fun p => p.2)).map (fun t => (t, deep))
  let s1 := nodeRegisterLoop old (st.heap.length + labels.length + 50) jobs built.2
  { heap := s1.heap, next := s1.next, reg := s1.reg, rootChildren := built.1 }

/-- `BaseMapper.entity` (mapper.py lines 29-34): on first access the entity is
constructed (modelled as allocating a fresh entity token) and cached in
`_entity`; later accesses return the cached object.  Nothing in a refresh ever
writes to `_entity`. -/
def materializeEntity (st : AccessorState) (t : Nat) : AccessorState :=
  match (heapGet st.heap t).entity with
  | some _ => st
  | none =>
    { st with
      heap := st.heap.map (fun p => if p.1 == t then (p.1, { p.2 with entity := some st.next }) else p),
      next := st.next + 1 }

/-- The node object reached by the two-segment path `seg1/seg2` through the public
namespace: the root child called `seg1`, then its child called `seg2`
(proxy attribute access `gmail.labels.user.seg1.seg2`). -/
def nodeAtPath (st : AccessorState) (seg1 seg2 : String) : Option Nat :=
  (dictGet? st.rootChildren seg1).bind (fun t => dictGet? (heapGet st.heap t).children seg2)

/-- Remote label `a` used in the reconciliation scenarios. -/
def labelA : RemoteLabel := { id := "Label_1", name := "a" }

/-- Remote label `a/b` used in the reconciliation scenarios. -/
def labelAB : RemoteLabel := { id := "Label_2", name := "a/b" }

/-- Accessor state after the first refresh fetching labels `a` and `a/b`. -/
def stOne : AccessorState := refresh accessorStart [labelA, labelAB]

/-- Accessor state after a second refresh fetching the same labels `a` and `a/b`. -/
def stTwo : AccessorState := refresh stOne [labelA, labelAB]

/-- Accessor state after a refresh that fetches only `a`, the remote label `a/b`
having been deleted since `stOne`. -/
def stDropB : AccessorState := refresh stOne [labelA]

/-- Decidable equality for `Except` results, so that rendering outcomes can be
evaluated on concrete inputs. -/
instance {ε α : Type} [DecidableEq ε] [DecidableEq α] : DecidableEq (Except ε α) := fun x y =>
  match x, y with
  | Except.ok a, Except.ok b =>
    if h : a = b then Decidable.isTrue (by rw [h]) else Decidable.isFalse (by simp [h])
  | Except.error a, Except.error b =>
    if h : a = b then Decidable.isTrue (by rw [h]) else Decidable.isFalse (by simp [h])
  | Except.ok _, Except.error _ => Decidable.isFalse (by simp)
  | Except.error _, Except.ok _ => Decidable.isFalse (by simp)

/-- `UserLabel.children` (label.py lines 76-78): resolve the label's own node
through the current registry by id, then list its children (their tokens, in
insertion order). -/
def userLabelChildren (st : AccessorState) (id : String) : Option (List Nat) :=
  (regGetById st.reg id).map (fun t => (heapGet st.heap t).children.map (fun p => p.2))

/-- Iterated refreshes of the two-label scenario: `refreshN n` is the accessor
state after `n` further refresh calls past `stOne`, each fetching the unchanged
remote list. -/
def refreshN : Nat → AccessorState
  | 0 => stOne
  | n + 1 => refresh (refreshN n) [labelA, labelAB]

/-- Accessor state after the entity of the node at path `a/b` (token 15) has been
materialised by a first `entity` access on `stOne`. -/
def stEnt : AccessorState := materializeEntity stOne 15

/-- `stEnt` after a further refresh fetching the unchanged remote list. -/
def stEntRefreshed : AccessorState := refresh stEnt [labelA, labelAB]

/-- Refreshing the reconciled two-label state with the unchanged remote list is a
fixed point: every node is found in the old registry and reused, the registry is
rebuilt with identical contents, and no allocation happens. -/
theorem refreshN_fixed : ∀ n, refreshN n = stOne
  | 0 => rfl
  | n + 1 => by rw [refreshN, refreshN_fixed n]; decide

/-- One unfolding of the token-following loop of `Query._fetch_message_ids` in the
limited case: break when the remainder is zero, otherwise request exactly the
remaining need and follow the continuation token. -/
theorem fetchPages_limit_step (s : PageSource) (l fuel : Nat) (res : List Nat)
    (off mr calls : Nat) :
    fetchPages s (some l) (fuel + 1) res off mr calls =
      if l - res.length = 0 then (res, calls)
      else
        match (listMessages s off (l - res.length)).2 with
        | none => (res ++ (listMessages s off (l - res.length)).1, calls + 1)
        | some off2 =>
          fetchPages s (some l) fuel (res ++ (listMessages s off (l - res.length)).1)
            off2 (l - res.length) (calls + 1) := rfl

/-- C1: the claim states `str(A == v) = name:"v"` and `str(A != v) = -name:"v"`,
but the executed `EquatableAttribute.__str__` override renders both as plain
`name:v`: unquoted, untruncated and with no `-` sign, because it never calls the
`prefix()`/`right()` methods that implement the claimed behaviour.  Those methods
(the `baseAttrStr` path, dead code at runtime) do produce the claimed string, so
the claim matches the code's evident intent and the override is the bug. -/
theorem equatable_render_override_divergence :
    equatableStr (attrEq "subject" "hello") = "subject:hello" ∧
    equatableStr (attrNe "subject" "hello") = "subject:hello" ∧
    equatableStr (attrNe "subject" "hello") ≠ "-subject:\"hello\"" ∧
    baseAttrStr (attrNe "subject" "hello") = Except.ok "-subject:\"hello\"" :=
  ⟨by decide, by decide, by decide, by decide⟩

/-- C2: a node present at path `a/b` before a refresh whose fetched remote list
still contains the same id for `a/b` is, after the refresh — indeed after any
number of refreshes — the very same object (the same allocation token, 15)
reachable at the same path: nodes found in the old registry are reused and
re-parented, never reconstructed. -/
theorem refresh_preserves_node_identity (n : Nat) :
    nodeAtPath (refreshN (n + 1)) "a" "b" = nodeAtPath stOne "a" "b" ∧
    nodeAtPath stOne "a" "b" = some 15 := by
  rw [refreshN_fixed]
  exact ⟨rfl, by decide⟩

/-- C3: the claim says an id present before a refresh but absent from the freshly
fetched list is unreachable by id and by name in the new registry.  The code
violates this: starting from the reconciled state for labels `a` (id Label_1) and
`a/b` (id Label_2), a refresh fetching only `a` reuses node `a` without clearing
its children, recurses into the stale child `a/b`, and `new_registry.set(self)`
re-registers the deleted label, leaving Label_2 reachable by id and by name. -/
theorem deleted_label_remains_registered :
    containsById stOne.reg "Label_2" = true ∧
    containsById stDropB.reg "Label_2" = true ∧
    containsByName stDropB.reg "a/b" = true :=
  ⟨by decide, by decide, by decide⟩

set_option maxHeartbeats 1000000 in
/-- C4: against any source holding at least 120 ids that serves at most 50 per
page and returns a continuation token while more remain, `_fetch_message_ids`
with limit 120 issues exactly 3 list calls (page sizes 50, 50, 20 — each follow-up
shrunk to the remaining need) and returns exactly 120 ids, stopping when the
remainder reaches zero or no token remains. -/
theorem pagination_exact_three_calls (total : Nat) (h : 120 ≤ total) :
    (fetch_message_ids { total := total, pageCap := 50 } (some 120)).1.length = 120 ∧
    (fetch_message_ids { total := total, pageCap := 50 } (some 120)).2 = 3 := by
  rcases Nat.eq_or_lt_of_le h with heq | hlt
  · subst heq
    decide
  · obtain ⟨m, rfl⟩ : ∃ m, total = m + 121 := ⟨total - 121, by omega⟩
    simp only [fetch_message_ids, listMessages]
    rw [show (50 ⊓ (120 ⊓ (m + 121 - 0))) = 50 by omega]
    rw [if_pos (by omega : 0 + 50 < m + 121)]
    dsimp only
    rw [show m + 121 + 1 = (m + 120) + 1 + 1 by omega]
    rw [fetchPages_limit_step]
    simp only [List.length_range']
    rw [if_neg (by omega : ¬ (120 - 50 = 0))]
    simp only [listMessages]
    rw [show (50 ⊓ ((120 - 50) ⊓ (m + 121 - (0 + 50)))) = 50 by omega]
    rw [if_pos (by omega : 0 + 50 + 50 < m + 121)]
    dsimp only
    rw [show m + 120 + 1 = (m + 119) + 1 + 1 by omega]
    rw [fetchPages_limit_step]
    simp only [List.length_append, List.length_range']
    rw [if_neg (by omega : ¬ (120 - (50 + 50) = 0))]
    simp only [listMessages]
    rw [show (50 ⊓ ((120 - (50 + 50)) ⊓ (m + 121 - (0 + 50 + 50)))) = 20 by omega]
    rw [if_pos (by omega : 0 + 50 + 50 + 20 < m + 121)]
    dsimp only
    rw [show m + 119 + 1 = (m + 118) + 1 + 1 by omega]
    rw [fetchPages_limit_step]
    simp only [List.length_append, List.length_range']
    simp only [if_true]
    constructor
    · simp [List.length_append, List.length_range']
    · norm_num

/-- Witness for C4: the pagination theorem applied to a concrete source of 200
ids. -/
theorem pagination_exact_three_calls_witness :
    120 ≤ 200 ∧
    ((fetch_message_ids { total := 200, pageCap := 50 } (some 120)).1.length = 120 ∧
     (fetch_message_ids { total := 200, pageCap := 50 } (some 120)).2 = 3) :=
  ⟨by norm_num, pagination_exact_three_calls 200 (by norm_num)⟩

/-- C5 counterexample: the claim says `str(Expression)` carries a negation prefix
and that a negated expression renders differently from its un-negated form; but
`Expression.__str__` never consults the flag, so the expression
`(from == 1) AND (to == 2)` renders identically with the flag true and false, and
the negated rendering carries no `-`. -/
theorem expression_negation_render_counterexample :
    exprStr (Expression.mk (Operand.attr (attrEq "from" "1")) ChainOperator.AND
        (Operand.attr (attrEq "to" "2")) (some true)) =
      exprStr (Expression.mk (Operand.attr (attrEq "from" "1")) ChainOperator.AND
        (Operand.attr (attrEq "to" "2")) (some false)) ∧
    exprStr (Expression.mk (Operand.attr (attrEq "from" "1")) ChainOperator.AND
        (Operand.attr (attrEq "to" "2")) (some true)) = "(from:1 to:2)" :=
  ⟨by decide, by decide⟩

/-- C5 as amended: `str(E)` is `open ++ str(left) ++ " " ++ str(right) ++ close`
with `( )` for AND and `{ }` for OR, with *no* negation prefix: the rendering is
independent of the negation flag, and since `__init__` never initialises
`negated`, `_negate` on a fresh expression raises AttributeError instead of
toggling it. -/
theorem expression_render_amended (l : Operand) (op : ChainOperator) (r : Operand)
    (n n' : Option Bool) :
    exprStr (Expression.mk l op r n) =
      (parentheses op).1 ++ operandStr l ++ " " ++ operandStr r ++ (parentheses op).2 ∧
    exprStr (Expression.mk l op r n) = exprStr (Expression.mk l op r n') ∧
    exprNegate (Expression.mk l op r none) = Except.error PyError.attributeError :=
  ⟨rfl, rfl, rfl⟩

/-- C6: the claim says a hierarchy refresh sets every node's cached entity back to
null so the next access re-fetches it.  The code never writes `_entity` during a
refresh: after materialising the entity of the node at path `a/b` (token 15, whose
cached entity is the object token 16) and refreshing with the unchanged remote
list, the reused node still reachable at `a/b` still holds the pre-refresh cached
entity. -/
theorem entity_cache_survives_refresh :
    (heapGet stEnt.heap 15).entity = some 16 ∧
    nodeAtPath stEntRefreshed "a" "b" = some 15 ∧
    (heapGet stEntRefreshed.heap 15).entity = some 16 :=
  ⟨by decide, by decide, by decide⟩

/-- C7: entering the scoped bulk-action context captures the query's current id
set; exiting without `commit()` performs no action invocation at all, while
`commit()` before exit makes the action fire exactly once, on exit, with the
captured set; immediate `execute()` captures the ids, fires the action exactly
once and returns the count of affected ids. -/
theorem bulk_action_commit_semantics (fetched : List String) :
    scopedRun fetched false = [] ∧
    scopedRun fetched true = [some fetched] ∧
    bulkExecute fetched =
      ({ committed := false, result_set := some fetched }, [some fetched],
        Except.ok fetched.length) :=
  ⟨rfl, rfl, rfl⟩

/-- C8 counterexample: the claim says constructing an Expression whose operand has
a null operand value or null operator raises immediately; but `Expression.__init__`
performs no validation, so construction with two attributes whose operator and
value are both `None` succeeds and produces an Expression object. -/
theorem expression_init_accepts_malformed :
    (expressionInit
        (Operand.attr { name := "from", operator := none, value := none, negated := false })
        ChainOperator.AND
        (Operand.attr { name := "to", operator := none, value := none, negated := false })).isOk
      = true := by decide

/-- C8 as amended: `Expression.__init__` only assigns its fields and never
validates the operands, so construction succeeds for every input — including
operands with null operand value or null operator — and yields exactly the
expression holding the given sides with `negated` unset; operator errors surface
only at rendering time. -/
theorem expression_init_never_fails (l : Operand) (op : ChainOperator) (r : Operand) :
    (expressionInit l op r).isOk = true ∧
    expressionInit l op r = Except.ok (Expression.mk l op r none) :=
  ⟨rfl, rfl⟩

/-- C9 counterexample: the claim's final clause says the stale child has been
evicted from the new Registry, but after refreshing the two-label state with a
list lacking `a/b` (id Label_2) the recursive walk re-registers the stale child,
so it is still contained in the new registry by id. -/
theorem stale_child_not_evicted_counterexample :
    containsById stDropB.reg "Label_2" = true := by decide

/-- C9 as amended: when a refresh reuses an existing node its children mapping is
not cleared, so a child whose label id is absent from the fresh remote list stays
in the parent's children mapping (and is returned by the `UserLabel.children`
accessor, and still reachable at its old path); moreover the recursive walk
re-inserts that stale child into the new Registry by id and by name rather than
evicting it. -/
theorem stale_child_retained_in_children :
    dictGet? (heapGet stDropB.heap 14).children "b" = some 15 ∧
    userLabelChildren stDropB "Label_1" = some [15] ∧
    nodeAtPath stDropB "a" "b" = some 15 ∧
    containsById stDropB.reg "Label_2" = true ∧
    containsByName stDropB.reg "a/b" = true :=
  ⟨by decide, by decide, by decide, by decide, by decide⟩

/-- C10: a `BulkActionContext` that has neither been entered nor executed has
`result_set = None`, and both `len()` and `bool()` on it raise TypeError instead
of returning 0: the size of the affected set is undefined until the id set has
been captured. -/
theorem bulk_len_undefined_before_capture :
    bulkInit.result_set = none ∧
    bulkLen bulkInit = Except.error PyError.typeError ∧
    bulkBool bulkInit = Except.error PyError.typeError :=
  ⟨rfl, rfl, rfl⟩
